import Mathlib

/-!
# cc/trees/layer_tree_impl.h

A shallow embedding of `LayerTreeLifecycle` and of the parts of `LayerTreeImpl`
declared in `cc/trees/layer_tree_impl.h`, with the properties checked against it.

Inline member functions of the header are translated directly.  Member functions
that the header only declares (their bodies live in `layer_tree_impl.cc`) are
modelled from the specification; each such definition says so in its doc comment.
-/

namespace cc

/-! ## LayerTreeLifecycle -/

/-- The enum `LayerTreeLifecycle::LifecycleState`, enumerators in declaration order. -/
inductive LifecycleState where
  | kNotSyncing
  | kBeginningSync
  | kSyncedPropertyTrees
  | kSyncedLayerProperties
  deriving DecidableEq

namespace LifecycleState

/-- The integral value of an enumerator: `kNotSyncing` is 0 and each following
enumerator is one more than the previous. -/
def toNat : LifecycleState → Nat
  | kNotSyncing => 0
  | kBeginningSync => 1
  | kSyncedPropertyTrees => 2
  | kSyncedLayerProperties => 3

/-- The alias `kLastSyncState = kSyncedLayerProperties`. -/
def kLastSyncState : LifecycleState := kSyncedLayerProperties

/-- All enumerators, in increasing order. -/
def all : List LifecycleState :=
  [kNotSyncing, kBeginningSync, kSyncedPropertyTrees, kSyncedLayerProperties]

end LifecycleState

open LifecycleState

/-- The class `LayerTreeLifecycle`: its only data member is `state_`, whose default
member initialiser is `kNotSyncing`. -/
structure LayerTreeLifecycle where
  state_ : LifecycleState := kNotSyncing
  deriving DecidableEq

namespace LayerTreeLifecycle

/-- `bool AllowsPropertyTreeAccess() const`:
`state_ == kNotSyncing || state_ >= kSyncedPropertyTrees`. -/
def AllowsPropertyTreeAccess (l : LayerTreeLifecycle) : Bool :=
  l.state_ == kNotSyncing || decide (l.state_.toNat ≥ kSyncedPropertyTrees.toNat)

/-- `bool AllowsLayerPropertyAccess() const`:
`state_ == kNotSyncing || state_ >= kSyncedLayerProperties`. -/
def AllowsLayerPropertyAccess (l : LayerTreeLifecycle) : Bool :=
  l.state_ == kNotSyncing || decide (l.state_.toNat ≥ kSyncedLayerProperties.toNat)

/-- Modelled from the spec: the body of `LayerTreeLifecycle::AdvanceTo`, which the
header only declares.  The specification requires advancing to be monotonic: a target
below the current state fails, a target equal to the current state or immediately after
it succeeds and becomes the state, and a target that skips a state fails.  A failed
assertion is `none`. -/
def AdvanceTo (l : LayerTreeLifecycle) (next_state : LifecycleState) :
    Option LayerTreeLifecycle :=
  if next_state.toNat < l.state_.toNat then none
  else if next_state.toNat = l.state_.toNat ∨ next_state.toNat = l.state_.toNat + 1 then
    some { l with state_ := next_state }
  else none

end LayerTreeLifecycle

/-! ## LayerTreeImpl: data members -/

/-- Modelled from the spec: the role of a generation (the header only declares
`IsActiveTree`, `IsPendingTree`, `IsRecycleTree` and `IsSyncTree`; the specification's
data model gives every generation one of these roles). -/
inductive TreeRole where
  | Active
  | Pending
  | Recycle
  | SyncSource
  deriving DecidableEq

/-- Modelled from the spec: a scene node (`LayerImpl`, declared in `layer_impl.h`): its
integer id and its optional element identifier. -/
structure LayerImpl where
  id : Int
  element_id : Option Nat
  deriving DecidableEq

/-- The struct `LayerTreeImpl::ViewportLayerIds`: six layer ids, one per viewport role. -/
structure ViewportLayerIds where
  overscroll_elasticity : Int
  page_scale : Int
  inner_viewport_container : Int
  outer_viewport_container : Int
  inner_viewport_scroll : Int
  outer_viewport_scroll : Int
  deriving DecidableEq

namespace ViewportLayerIds

/-- A default-constructed `ViewportLayerIds`.  Every member has the default member
initialiser `Layer::INVALID_ID`; that constant is declared in `layer.h`, so it is a
parameter here. -/
def defaultConstructed (INVALID_ID : Int) : ViewportLayerIds where
  overscroll_elasticity := INVALID_ID
  page_scale := INVALID_ID
  inner_viewport_container := INVALID_ID
  outer_viewport_container := INVALID_ID
  inner_viewport_scroll := INVALID_ID
  outer_viewport_scroll := INVALID_ID

end ViewportLayerIds

/-- The data members of `LayerTreeImpl` that the modelled member functions read or
write.  `Promise` is the type of the opaque swap-promise handles.  `layers_` is the
owned layer list, `layer_id_map_` the map from layer id to layer (a finite partial
function), and the two promise lists are vectors in insertion order.  `role` stands
for what `IsActiveTree()` and its siblings answer. -/
structure LayerTreeImpl (Promise : Type) where
  role : TreeRole
  source_frame_number_ : Int
  is_first_frame_after_commit_tracker_ : Int
  viewport_layer_ids_ : ViewportLayerIds
  layers_ : List LayerImpl
  layer_id_map_ : Int → Option LayerImpl
  swap_promise_list_ : List Promise
  pinned_swap_promise_list_ : List Promise
  lifecycle_ : LayerTreeLifecycle

namespace LayerTreeImpl

variable {Promise : Type}

/-- Modelled from the spec: a generation as the outer renderer creates it, empty: no
layers, no registered ids, no queued promises, every viewport role unset, the lifecycle
freshly constructed.  The constructor is only declared in the header, so the initial
values of the two frame counters are parameters, as is `Layer::INVALID_ID`. -/
def created (role : TreeRole) (INVALID_ID : Int) (source_frame_number tracker : Int) :
    LayerTreeImpl Promise where
  role := role
  source_frame_number_ := source_frame_number
  is_first_frame_after_commit_tracker_ := tracker
  viewport_layer_ids_ := ViewportLayerIds.defaultConstructed INVALID_ID
  layers_ := []
  layer_id_map_ := fun _ => none
  swap_promise_list_ := []
  pinned_swap_promise_list_ := []
  lifecycle_ := {}

/-- Modelled from the spec: `IsActiveTree()`, true exactly for the generation whose role
is `Active`. -/
def IsActiveTree (t : LayerTreeImpl Promise) : Bool :=
  t.role == TreeRole.Active

/-! ## Inline accessors of the header -/

/-- `int source_frame_number() const`. -/
def source_frame_number (t : LayerTreeImpl Promise) : Int :=
  t.source_frame_number_

/-- `void set_source_frame_number(int frame_number)`. -/
def set_source_frame_number (frame_number : Int) (t : LayerTreeImpl Promise) :
    LayerTreeImpl Promise :=
  { t with source_frame_number_ := frame_number }

/-- `bool is_first_frame_after_commit() const`:
`source_frame_number_ != is_first_frame_after_commit_tracker_`. -/
def is_first_frame_after_commit (t : LayerTreeImpl Promise) : Bool :=
  t.source_frame_number_ != t.is_first_frame_after_commit_tracker_

/-- `void set_is_first_frame_after_commit(bool)`: the tracker becomes `-1` for `true`
and the current source frame number for `false`. -/
def set_is_first_frame_after_commit (is_first : Bool) (t : LayerTreeImpl Promise) :
    LayerTreeImpl Promise :=
  { t with is_first_frame_after_commit_tracker_ :=
      if is_first then -1 else t.source_frame_number_ }

/-! ## Node registry -/

/-- Modelled from the spec: `LayerById(id)` (`FindById`), the layer registered under
`id` in the id map, or null (`none`). -/
def LayerById (t : LayerTreeImpl Promise) (id : Int) : Option LayerImpl :=
  t.layer_id_map_ id

/-- Modelled from the spec: `RegisterLayer(layer)`, the hook a layer's constructor
calls.  It enters the layer in the id map under its id.  An id is never reused while a
layer with that id is registered, so registering an id that is present fails (`none`). -/
def RegisterLayer (layer : LayerImpl) (t : LayerTreeImpl Promise) :
    Option (LayerTreeImpl Promise) :=
  match t.LayerById layer.id with
  | some _ => none
  | none =>
    some { t with layer_id_map_ := fun i => if i = layer.id then some layer else t.layer_id_map_ i }

/-- Modelled from the spec: `UnregisterLayer(layer)`, the hook a layer's destructor
calls.  It erases the layer's id from the id map. -/
def UnregisterLayer (layer : LayerImpl) (t : LayerTreeImpl Promise) : LayerTreeImpl Promise :=
  { t with layer_id_map_ := fun i => if i = layer.id then none else t.layer_id_map_ i }

/-- Modelled from the spec: `AddLayer(layer)`, which takes ownership of the layer by
appending it to the owned list. -/
def AddLayer (layer : LayerImpl) (t : LayerTreeImpl Promise) : LayerTreeImpl Promise :=
  { t with layers_ := t.layers_ ++ [layer] }

/-- Modelled from the spec: `RemoveLayer(id)`, which gives up ownership of the first
owned layer with this id and returns it; when no owned layer has the id it returns null
and changes nothing. -/
def RemoveLayer (id : Int) (t : LayerTreeImpl Promise) :
    Option LayerImpl × LayerTreeImpl Promise :=
  match t.layers_.find? (fun l => l.id == id) with
  | some l => (some l, { t with layers_ := t.layers_.erase l })
  | none => (none, t)

/-- Modelled from the spec: `AddNode`, adding a layer built for this tree.  The
layer's construction runs the `RegisterLayer` hook, then `AddLayer` takes ownership. -/
def AddNode (layer : LayerImpl) (t : LayerTreeImpl Promise) : Option (LayerTreeImpl Promise) :=
  (t.RegisterLayer layer).map (AddLayer layer)

/-- Modelled from the spec: `RemoveNode`, removing a layer and letting it go.
`RemoveLayer(id)` hands the layer out, and the destruction of the returned layer runs
the `UnregisterLayer` hook. -/
def RemoveNode (id : Int) (t : LayerTreeImpl Promise) : LayerTreeImpl Promise :=
  match t.RemoveLayer id with
  | (some l, t1) => t1.UnregisterLayer l
  | (none, t1) => t1

/-! ## Viewport layer accessors (inline in the header) -/

/-- `LayerImpl* OverscrollElasticityLayer() const`. -/
def OverscrollElasticityLayer (t : LayerTreeImpl Promise) : Option LayerImpl :=
  t.LayerById t.viewport_layer_ids_.overscroll_elasticity

/-- `LayerImpl* PageScaleLayer() const`. -/
def PageScaleLayer (t : LayerTreeImpl Promise) : Option LayerImpl :=
  t.LayerById t.viewport_layer_ids_.page_scale

/-- `LayerImpl* InnerViewportContainerLayer() const`. -/
def InnerViewportContainerLayer (t : LayerTreeImpl Promise) : Option LayerImpl :=
  t.LayerById t.viewport_layer_ids_.inner_viewport_container

/-- `LayerImpl* OuterViewportContainerLayer() const`. -/
def OuterViewportContainerLayer (t : LayerTreeImpl Promise) : Option LayerImpl :=
  t.LayerById t.viewport_layer_ids_.outer_viewport_container

/-- `LayerImpl* InnerViewportScrollLayer() const`. -/
def InnerViewportScrollLayer (t : LayerTreeImpl Promise) : Option LayerImpl :=
  t.LayerById t.viewport_layer_ids_.inner_viewport_scroll

/-- `LayerImpl* OuterViewportScrollLayer() const`. -/
def OuterViewportScrollLayer (t : LayerTreeImpl Promise) : Option LayerImpl :=
  t.LayerById t.viewport_layer_ids_.outer_viewport_scroll

end LayerTreeImpl

/-! ## Swap promises -/

/-- Modelled from the spec: a notification a commit promise can receive (`SwapPromise`
is declared in `swap_promise.h`): activation, a swap, or a failed swap with its reason.
`Reason` is the type `SwapPromise::DidNotSwapReason`. -/
inductive SwapPromiseCall (Reason : Type) where
  | DidActivate
  | DidSwap
  | DidNotSwap (reason : Reason)
  deriving DecidableEq

namespace LayerTreeImpl

variable {Promise Reason : Type}

/-- Modelled from the spec: `QueueSwapPromise(promise)` appends to the general queue. -/
def QueueSwapPromise (swap_promise : Promise) (t : LayerTreeImpl Promise) :
    LayerTreeImpl Promise :=
  { t with swap_promise_list_ := t.swap_promise_list_ ++ [swap_promise] }

/-- Modelled from the spec: `QueuePinnedSwapPromise(promise)` appends to the pinned
queue; pinned promises may only be queued on the active tree, and the call fails its
assertion (`none`) on any other tree. -/
def QueuePinnedSwapPromise (swap_promise : Promise) (t : LayerTreeImpl Promise) :
    Option (LayerTreeImpl Promise) :=
  if t.IsActiveTree then
    some { t with pinned_swap_promise_list_ := t.pinned_swap_promise_list_ ++ [swap_promise] }
  else none

/-- Modelled from the spec: `BreakSwapPromises(reason)` (`BreakAll`) delivers
`DidNotSwap(reason)` to every promise of both queues in insertion order, the general
queue before the pinned one, then clears both.  The result is the tree afterwards and
the notifications delivered, in order of delivery. -/
def BreakSwapPromises (reason : Reason) (t : LayerTreeImpl Promise) :
    LayerTreeImpl Promise × List (Promise × SwapPromiseCall Reason) :=
  let delivered_general := t.swap_promise_list_.map fun p => (p, SwapPromiseCall.DidNotSwap reason)
  let delivered_pinned :=
    t.pinned_swap_promise_list_.map fun p => (p, SwapPromiseCall.DidNotSwap reason)
  ({ t with swap_promise_list_ := [], pinned_swap_promise_list_ := [] },
    delivered_general ++ delivered_pinned)

/-- Modelled from the spec: `PassSwapPromises(new_swap_promises)` (`PassAll`) replaces
the general queue, breaking every promise currently held in it with reason
`SWAP_FAILS`.  That enumerator is declared in `swap_promise.h`, so it is a parameter.
The result is the tree afterwards and the notifications delivered, in order. -/
def PassSwapPromises (SWAP_FAILS : Reason) (new_swap_promises : List Promise)
    (t : LayerTreeImpl Promise) :
    LayerTreeImpl Promise × List (Promise × SwapPromiseCall Reason) :=
  let delivered := t.swap_promise_list_.map fun p => (p, SwapPromiseCall.DidNotSwap SWAP_FAILS)
  ({ t with swap_promise_list_ := new_swap_promises }, delivered)

end LayerTreeImpl

/-! ## Root scroll distribution -/

/-- Modelled from the spec: a viewport scroll node on one axis: its current scroll
offset and the largest offset it can reach. -/
structure ScrollNode where
  current_scroll_offset : Nat
  max_scroll_offset : Nat
  deriving DecidableEq

namespace ScrollNode

/-- The remaining scrollable range of a node. -/
def remaining (n : ScrollNode) : Nat :=
  n.max_scroll_offset - n.current_scroll_offset

/-- Scrolls a node by as much of `amount` as its remaining range permits.  The result
is the node afterwards and the part of `amount` left over. -/
def scrollBy (n : ScrollNode) (amount : Nat) : ScrollNode × Nat :=
  let consumed := min amount n.remaining
  ({ n with current_scroll_offset := n.current_scroll_offset + consumed }, amount - consumed)

end ScrollNode

/-- Modelled from the spec: the outer and the inner viewport scroll node. -/
structure ViewportScrollNodes where
  outer : ScrollNode
  inner : ScrollNode
  deriving DecidableEq

namespace LayerTreeImpl

/-- Modelled from the spec: `DistributeRootScrollOffset(offset)`.  The outer viewport
scroll node is scrolled first and consumes as much of the offset as its scrollable
range permits; the remainder is applied to the inner viewport scroll node; the result
says whether any node actually moved. -/
def DistributeRootScrollOffset (v : ViewportScrollNodes) (root_offset : Nat) :
    ViewportScrollNodes × Bool :=
  let o := v.outer.scrollBy root_offset
  let i := v.inner.scrollBy o.2
  ({ outer := o.1, inner := i.1 }, decide (o.2 < root_offset) || decide (i.2 < o.2))

end LayerTreeImpl

/-- One step of a sequence of registry operations. -/
inductive RegistryOp where
  | add (layer : LayerImpl)
  | remove (id : Int)
  deriving DecidableEq

namespace LayerTreeImpl

variable {Promise : Type}

/-- Performs one registry operation; `none` when the operation fails. -/
def applyOp (t : LayerTreeImpl Promise) : RegistryOp → Option (LayerTreeImpl Promise)
  | RegistryOp.add layer => t.AddNode layer
  | RegistryOp.remove id => some (t.RemoveNode id)

/-- Performs a sequence of registry operations from left to right; `none` as soon as
one of them fails. -/
def applyOps (t : LayerTreeImpl Promise) : List RegistryOp → Option (LayerTreeImpl Promise)
  | [] => some t
  | op :: ops =>
    match t.applyOp op with
    | some t1 => t1.applyOps ops
    | none => none

/-- The id map is a bijection between the registered ids and the live (owned) layers:
no layer is owned twice, every owned layer is registered under its own id, and every
registered id leads to an owned layer that carries this id. -/
def IdMapBijection (t : LayerTreeImpl Promise) : Prop :=
  t.layers_.Nodup ∧
  (∀ l ∈ t.layers_, t.LayerById l.id = some l) ∧
  (∀ id l, t.LayerById id = some l → l ∈ t.layers_ ∧ l.id = id)

end LayerTreeImpl

/-! ## Properties of the lifecycle -/

namespace LayerTreeLifecycle

/-- C1: in every lifecycle state, `AllowsPropertyTreeAccess()` is true if and only if
the state is `kNotSyncing`, `kSyncedPropertyTrees` or `kSyncedLayerProperties`, and it
is false exactly in `kBeginningSync`. -/
theorem allowsPropertyTreeAccess_iff (l : LayerTreeLifecycle) :
    (l.AllowsPropertyTreeAccess = true ↔
      (l.state_ = kNotSyncing ∨ l.state_ = kSyncedPropertyTrees ∨
        l.state_ = kSyncedLayerProperties)) ∧
    (l.AllowsPropertyTreeAccess = false ↔ l.state_ = kBeginningSync) := by
  obtain ⟨s⟩ := l
  cases s <;> simp [AllowsPropertyTreeAccess, LifecycleState.toNat]

/-- C2: in every lifecycle state, `AllowsLayerPropertyAccess()` is true if and only if
the state is `kNotSyncing` or is at least `kSyncedLayerProperties`, and it is false
exactly in `kBeginningSync` and `kSyncedPropertyTrees`. -/
theorem allowsLayerPropertyAccess_iff (l : LayerTreeLifecycle) :
    (l.AllowsLayerPropertyAccess = true ↔
      (l.state_ = kNotSyncing ∨ l.state_.toNat ≥ kSyncedLayerProperties.toNat)) ∧
    (l.AllowsLayerPropertyAccess = false ↔
      (l.state_ = kBeginningSync ∨ l.state_ = kSyncedPropertyTrees)) := by
  obtain ⟨s⟩ := l
  cases s <;> simp [AllowsLayerPropertyAccess, LifecycleState.toNat]

/-- C3: for every current state and every target state, `AdvanceTo` fails when the
target is below the current state, and succeeds with the state equal to the target
when the target is the current state or the state immediately after it. -/
theorem advanceTo_monotonic (l : LayerTreeLifecycle) (target : LifecycleState) :
    (target.toNat < l.state_.toNat → l.AdvanceTo target = none) ∧
    (target = l.state_ ∨ target.toNat = l.state_.toNat + 1 →
      l.AdvanceTo target = some { state_ := target } ∧
      ∀ l1, l.AdvanceTo target = some l1 → l1.state_ = target) := by
  obtain ⟨s⟩ := l
  cases s <;> cases target <;> simp [AdvanceTo, LifecycleState.toNat]

/-- C10: a newly constructed `LayerTreeLifecycle` is in state `kNotSyncing`, and both
`AllowsPropertyTreeAccess()` and `AllowsLayerPropertyAccess()` are true on it. -/
theorem newly_constructed_allows_access :
    ({} : LayerTreeLifecycle).state_ = kNotSyncing ∧
    ({} : LayerTreeLifecycle).AllowsPropertyTreeAccess = true ∧
    ({} : LayerTreeLifecycle).AllowsLayerPropertyAccess = true := by
  refine ⟨rfl, ?_, ?_⟩ <;> decide

end LayerTreeLifecycle

/-! ## Properties of the root scroll distribution -/

namespace LayerTreeImpl

/-- C4: `DistributeRootScrollOffset` scrolls the outer viewport first.  With remaining
ranges `R_outer` and `R_inner` and applied offset `O`: when `O ≤ R_outer` the outer node
moves by `O` and the inner node stays; otherwise the outer node moves by `R_outer` and
the inner node by `min (O - R_outer) R_inner`.  The result is true exactly when a node
moved.  Ranges 100 and 50 at offset 0 with offset 120 end at 100 and 20 with result
true, and offset 0 moves nothing with result false. -/
theorem distributeRootScrollOffset_outer_first (v : ViewportScrollNodes) (O : Nat) :
    (if O ≤ v.outer.remaining then
      (DistributeRootScrollOffset v O).1.outer.current_scroll_offset =
          v.outer.current_scroll_offset + O ∧
        (DistributeRootScrollOffset v O).1.inner.current_scroll_offset =
          v.inner.current_scroll_offset
    else
      (DistributeRootScrollOffset v O).1.outer.current_scroll_offset =
          v.outer.current_scroll_offset + v.outer.remaining ∧
        (DistributeRootScrollOffset v O).1.inner.current_scroll_offset =
          v.inner.current_scroll_offset + min (O - v.outer.remaining) v.inner.remaining) ∧
    ((DistributeRootScrollOffset v O).2 = true ↔
      ((DistributeRootScrollOffset v O).1.outer.current_scroll_offset ≠
          v.outer.current_scroll_offset ∨
        (DistributeRootScrollOffset v O).1.inner.current_scroll_offset ≠
          v.inner.current_scroll_offset)) ∧
    DistributeRootScrollOffset ⟨⟨0, 100⟩, ⟨0, 50⟩⟩ 120 = (⟨⟨100, 100⟩, ⟨20, 50⟩⟩, true) ∧
    DistributeRootScrollOffset ⟨⟨0, 100⟩, ⟨0, 50⟩⟩ 0 = (⟨⟨0, 100⟩, ⟨0, 50⟩⟩, false) ∧
    DistributeRootScrollOffset ⟨⟨100, 100⟩, ⟨20, 50⟩⟩ 0 = (⟨⟨100, 100⟩, ⟨20, 50⟩⟩, false) := by
  refine ⟨?_, ?_, by decide, by decide, by decide⟩
  · split_ifs with h
    · simp only [DistributeRootScrollOffset, ScrollNode.scrollBy, ScrollNode.remaining] at h ⊢
      omega
    · simp only [DistributeRootScrollOffset, ScrollNode.scrollBy, ScrollNode.remaining] at h ⊢
      omega
  · simp only [DistributeRootScrollOffset, ScrollNode.scrollBy, ScrollNode.remaining,
      Bool.or_eq_true, decide_eq_true_eq]
    omega

end LayerTreeImpl

/-! ## Properties of the swap promise queues -/

namespace LayerTreeImpl

variable {Promise Reason : Type}

/-- C5: for any contents of the two queues and any reason, `BreakSwapPromises(reason)`
notifies the promises of the general queue in insertion order and then those of the
pinned queue in insertion order, every notification is `DidNotSwap(reason)`, every
promise is notified once for each time it is queued, and both queues are empty
afterwards.  With `P1` in the general and `P2` in the pinned queue of an active tree,
the notifications are `DidNotSwap(reason)` to `P1` and then to `P2`, once each. -/
theorem breakSwapPromises_delivers_once [DecidableEq Promise]
    (t : LayerTreeImpl Promise) (reason : Reason) :
    (t.BreakSwapPromises reason).2.map Prod.fst =
      t.swap_promise_list_ ++ t.pinned_swap_promise_list_ ∧
    (∀ n ∈ (t.BreakSwapPromises reason).2, n.2 = SwapPromiseCall.DidNotSwap reason) ∧
    (∀ p, ((t.BreakSwapPromises reason).2.map Prod.fst).count p =
      t.swap_promise_list_.count p + t.pinned_swap_promise_list_.count p) ∧
    (t.BreakSwapPromises reason).1.swap_promise_list_ = [] ∧
    (t.BreakSwapPromises reason).1.pinned_swap_promise_list_ = [] ∧
    (((created TreeRole.Active (-1) 0 0 : LayerTreeImpl Nat).QueueSwapPromise
        1).QueuePinnedSwapPromise 2).map (fun g => (g.BreakSwapPromises reason).2) =
      some [(1, SwapPromiseCall.DidNotSwap reason), (2, SwapPromiseCall.DidNotSwap reason)] := by
  have hfst : (t.BreakSwapPromises reason).2.map Prod.fst =
      t.swap_promise_list_ ++ t.pinned_swap_promise_list_ := by
    simp [BreakSwapPromises, List.map_append, Function.comp_def]
  refine ⟨hfst, ?_, ?_, rfl, rfl, rfl⟩
  · intro n hn
    simp only [BreakSwapPromises, List.mem_append, List.mem_map] at hn
    rcases hn with ⟨p, _, rfl⟩ | ⟨p, _, rfl⟩ <;> rfl
  · intro p
    rw [hfst, List.count_append]

/-- C6: for every general queue and every new list, `PassSwapPromises` notifies
exactly the promises that were in the general queue, each with
`DidNotSwap(SWAP_FAILS)`, and leaves the general queue equal to the new list; a new
promise that was not queued before receives no notification. -/
theorem passSwapPromises_breaks_old (SWAP_FAILS : Reason) (new_swap_promises : List Promise)
    (t : LayerTreeImpl Promise) :
    (t.PassSwapPromises SWAP_FAILS new_swap_promises).2 =
      t.swap_promise_list_.map (fun p => (p, SwapPromiseCall.DidNotSwap SWAP_FAILS)) ∧
    (∀ p ∈ t.swap_promise_list_,
      (p, SwapPromiseCall.DidNotSwap SWAP_FAILS) ∈
        (t.PassSwapPromises SWAP_FAILS new_swap_promises).2) ∧
    (t.PassSwapPromises SWAP_FAILS new_swap_promises).1.swap_promise_list_ =
      new_swap_promises ∧
    (∀ p ∈ new_swap_promises, p ∉ t.swap_promise_list_ →
      ∀ c, (p, c) ∉ (t.PassSwapPromises SWAP_FAILS new_swap_promises).2) := by
  refine ⟨rfl, ?_, rfl, ?_⟩
  · intro p hp
    exact List.mem_map.mpr ⟨p, hp, rfl⟩
  · intro p _ hq c hc
    simp only [PassSwapPromises, List.mem_map, Prod.mk.injEq] at hc
    obtain ⟨q, hq1, rfl, _⟩ := hc
    exact hq hq1

/-- C9: `QueuePinnedSwapPromise` succeeds exactly on the active tree.  There it appends
the promise to the pinned queue and leaves the general queue as it was; on a tree whose
role is not `Active` it fails and so queues nothing. -/
theorem queuePinnedSwapPromise_active_only (swap_promise : Promise)
    (t : LayerTreeImpl Promise) :
    ((t.QueuePinnedSwapPromise swap_promise).isSome = true ↔ t.role = TreeRole.Active) ∧
    (t.role ≠ TreeRole.Active → t.QueuePinnedSwapPromise swap_promise = none) ∧
    (∀ t1, t.QueuePinnedSwapPromise swap_promise = some t1 →
      t1.pinned_swap_promise_list_ = t.pinned_swap_promise_list_ ++ [swap_promise] ∧
      t1.swap_promise_list_ = t.swap_promise_list_) := by
  by_cases h : t.role = TreeRole.Active
  · simp [QueuePinnedSwapPromise, IsActiveTree, h]
  · simp [QueuePinnedSwapPromise, IsActiveTree, h]

end LayerTreeImpl

/-! ## Properties of the viewport layer accessors -/

namespace LayerTreeImpl

variable {Promise : Type}

/-- C8: each of the six viewport role accessors returns `LayerById` applied to its own
member of `viewport_layer_ids_`, and a default-constructed `ViewportLayerIds` has all
six ids equal to `INVALID_ID`. -/
theorem viewport_accessors_read_own_id (t : LayerTreeImpl Promise) (INVALID_ID : Int) :
    t.OverscrollElasticityLayer = t.LayerById t.viewport_layer_ids_.overscroll_elasticity ∧
    t.PageScaleLayer = t.LayerById t.viewport_layer_ids_.page_scale ∧
    t.InnerViewportContainerLayer =
      t.LayerById t.viewport_layer_ids_.inner_viewport_container ∧
    t.OuterViewportContainerLayer =
      t.LayerById t.viewport_layer_ids_.outer_viewport_container ∧
    t.InnerViewportScrollLayer = t.LayerById t.viewport_layer_ids_.inner_viewport_scroll ∧
    t.OuterViewportScrollLayer = t.LayerById t.viewport_layer_ids_.outer_viewport_scroll ∧
    (ViewportLayerIds.defaultConstructed INVALID_ID).overscroll_elasticity = INVALID_ID ∧
    (ViewportLayerIds.defaultConstructed INVALID_ID).page_scale = INVALID_ID ∧
    (ViewportLayerIds.defaultConstructed INVALID_ID).inner_viewport_container = INVALID_ID ∧
    (ViewportLayerIds.defaultConstructed INVALID_ID).outer_viewport_container = INVALID_ID ∧
    (ViewportLayerIds.defaultConstructed INVALID_ID).inner_viewport_scroll = INVALID_ID ∧
    (ViewportLayerIds.defaultConstructed INVALID_ID).outer_viewport_scroll = INVALID_ID :=
  ⟨rfl, rfl, rfl, rfl, rfl, rfl, rfl, rfl, rfl, rfl, rfl, rfl⟩

end LayerTreeImpl

/-! ## Properties of the node registry -/

namespace LayerTreeImpl

variable {Promise : Type}

/-- A freshly created tree has an empty registry, so its id map is a bijection. -/
theorem idMapBijection_created (role : TreeRole) (INVALID_ID a b : Int) :
    IdMapBijection (created role INVALID_ID a b : LayerTreeImpl Promise) := by
  refine ⟨List.nodup_nil, ?_, ?_⟩
  · intro l hl
    simp [created] at hl
  · intro id l h
    simp [created, LayerById] at h

/-- Adding a node keeps the id map a bijection. -/
theorem idMapBijection_addNode (t t1 : LayerTreeImpl Promise) (layer : LayerImpl)
    (h : IdMapBijection t) (hadd : t.AddNode layer = some t1) : IdMapBijection t1 := by
  obtain ⟨hnd, hlive, hreg⟩ := h
  unfold AddNode RegisterLayer at hadd
  cases hfree : t.LayerById layer.id with
  | some l0 => simp [hfree] at hadd
  | none =>
    simp only [hfree, Option.map_some', Option.some.injEq] at hadd
    subst hadd
    have hnot : layer ∉ t.layers_ := by
      intro hmem
      have := hlive layer hmem
      rw [hfree] at this
      exact Option.noConfusion this
    refine ⟨?_, ?_, ?_⟩
    · show (t.layers_ ++ [layer]).Nodup
      refine List.Nodup.append hnd (List.nodup_singleton layer) ?_
      intro x hx hx1
      rw [List.mem_singleton] at hx1
      exact hnot (hx1 ▸ hx)
    · intro l hl
      have hl1 : l ∈ t.layers_ ∨ l = layer := by
        simpa [AddLayer] using hl
      show (if l.id = layer.id then some layer else t.layer_id_map_ l.id) = some l
      rcases hl1 with hl1 | rfl
      · have hreg1 := hlive l hl1
        have hne : l.id ≠ layer.id := by
          intro heq
          rw [heq, hfree] at hreg1
          exact Option.noConfusion hreg1
        rw [if_neg hne]
        exact hreg1
      · rw [if_pos rfl]
    · intro id l hl
      have hl1 : (if id = layer.id then some layer else t.layer_id_map_ id) = some l := hl
      show l ∈ t.layers_ ++ [layer] ∧ l.id = id
      by_cases hid : id = layer.id
      · rw [if_pos hid] at hl1
        have : layer = l := Option.some.inj hl1
        subst this
        exact ⟨by simp, hid.symm⟩
      · rw [if_neg hid] at hl1
        obtain ⟨hm, hi⟩ := hreg id l hl1
        exact ⟨List.mem_append_left _ hm, hi⟩

/-- Removing a node keeps the id map a bijection. -/
theorem idMapBijection_removeNode (t : LayerTreeImpl Promise) (id : Int)
    (h : IdMapBijection t) : IdMapBijection (t.RemoveNode id) := by
  obtain ⟨hnd, hlive, hreg⟩ := h
  unfold RemoveNode RemoveLayer
  cases hfind : t.layers_.find? (fun l => l.id == id) with
  | none => exact ⟨hnd, hlive, hreg⟩
  | some l0 =>
    have hmem0 : l0 ∈ t.layers_ := List.mem_of_find?_eq_some hfind
    refine ⟨?_, ?_, ?_⟩
    · show (t.layers_.erase l0).Nodup
      exact hnd.erase l0
    · intro l hl
      have hl1 : l ∈ t.layers_.erase l0 := hl
      rw [hnd.mem_erase_iff] at hl1
      obtain ⟨hne, hl2⟩ := hl1
      show (if l.id = l0.id then none else t.layer_id_map_ l.id) = some l
      have hid : l.id ≠ l0.id := by
        intro heq
        have h1 := hlive l hl2
        have h2 := hlive l0 hmem0
        rw [heq, h2] at h1
        exact hne (Option.some.inj h1).symm
      rw [if_neg hid]
      exact hlive l hl2
    · intro i l hl
      have hl1 : (if i = l0.id then none else t.layer_id_map_ i) = some l := hl
      show l ∈ t.layers_.erase l0 ∧ l.id = i
      by_cases hi : i = l0.id
      · rw [if_pos hi] at hl1
        exact Option.noConfusion hl1
      · rw [if_neg hi] at hl1
        obtain ⟨hm, hli⟩ := hreg i l hl1
        refine ⟨?_, hli⟩
        rw [hnd.mem_erase_iff]
        refine ⟨?_, hm⟩
        intro heq
        exact hi (by rw [← hli, heq])

/-- After a node with the given id is removed from a tree whose id map is a bijection,
the id is no longer registered. -/
theorem layerById_removeNode (t : LayerTreeImpl Promise) (id : Int)
    (h : IdMapBijection t) : (t.RemoveNode id).LayerById id = none := by
  obtain ⟨_, _, hreg⟩ := h
  unfold RemoveNode RemoveLayer
  cases hfind : t.layers_.find? (fun l => l.id == id) with
  | none =>
    show t.LayerById id = none
    cases hl : t.LayerById id with
    | none => rfl
    | some l =>
      obtain ⟨hm, hli⟩ := hreg id l hl
      have := List.find?_eq_none.mp hfind l hm
      simp [hli] at this
  | some l0 =>
    have hid : l0.id = id := by
      have := List.find?_some hfind
      simpa using this
    show (if id = l0.id then none else t.layer_id_map_ id) = none
    rw [if_pos hid.symm]

/-- Every sequence of registry operations keeps the id map a bijection. -/
theorem idMapBijection_applyOps (ops : List RegistryOp) :
    ∀ (t t1 : LayerTreeImpl Promise), IdMapBijection t → t.applyOps ops = some t1 →
      IdMapBijection t1 := by
  induction ops with
  | nil =>
    intro t t1 h hrun
    simp only [applyOps, Option.some.injEq] at hrun
    exact hrun ▸ h
  | cons op ops ih =>
    intro t t1 h hrun
    cases op with
    | add layer =>
      simp only [applyOps, applyOp] at hrun
      cases hadd : t.AddNode layer with
      | none => simp [hadd] at hrun
      | some t2 =>
        simp only [hadd] at hrun
        exact ih t2 t1 (idMapBijection_addNode t t2 layer h hadd) hrun
    | remove id =>
      simp only [applyOps, applyOp] at hrun
      exact ih _ t1 (idMapBijection_removeNode t id h) hrun

/-- C7: for every sequence of node additions and removals (each with the register or
unregister hook it triggers), started in a tree whose id map is a bijection, the id map
of the tree reached is again a bijection between the registered ids and the live
layers, looking up the id of a live layer gives that layer, and after the removal of
any id the lookup of that id returns null. -/
theorem idMap_stays_bijection (t t1 : LayerTreeImpl Promise) (ops : List RegistryOp)
    (h : IdMapBijection t) (hrun : t.applyOps ops = some t1) :
    IdMapBijection t1 ∧
    Set.BijOn LayerImpl.id {l | l ∈ t1.layers_} {id | (t1.LayerById id).isSome = true} ∧
    (∀ l ∈ t1.layers_, t1.LayerById l.id = some l) ∧
    (∀ id, (t1.RemoveNode id).LayerById id = none) := by
  have h1 : IdMapBijection t1 := idMapBijection_applyOps ops t t1 h hrun
  refine ⟨h1, ⟨?_, ?_, ?_⟩, h1.2.1, fun id => layerById_removeNode t1 id h1⟩
  · intro l hl
    show (t1.LayerById l.id).isSome = true
    rw [h1.2.1 l hl]
    rfl
  · intro l hl l2 hl2 heq
    have e1 := h1.2.1 l hl
    have e2 := h1.2.1 l2 hl2
    have heq1 : l.id = l2.id := heq
    rw [heq1, e2] at e1
    exact (Option.some.inj e1).symm
  · intro id hid
    have hid1 : (t1.LayerById id).isSome = true := hid
    obtain ⟨l, hl⟩ := Option.isSome_iff_exists.mp hid1
    obtain ⟨hm, hli⟩ := h1.2.2 id l hl
    exact ⟨l, hm, hli⟩

/-- C7 at a concrete input: layers 1 and 2 are added to a freshly created tree and
layer 1 is removed again; layer 2 alone stays owned and registered. -/
theorem idMap_stays_bijection_witness :
    IdMapBijection (created TreeRole.Active (-1) 0 0 : LayerTreeImpl Nat) ∧
    (created TreeRole.Active (-1) 0 0 : LayerTreeImpl Nat).applyOps
        [RegistryOp.add ⟨1, none⟩, RegistryOp.add ⟨2, some 7⟩, RegistryOp.remove 1] =
      some { (created TreeRole.Active (-1) 0 0 : LayerTreeImpl Nat) with
        layers_ := [⟨2, some 7⟩]
        layer_id_map_ := fun i => if i = 2 then some ⟨2, some 7⟩ else none } ∧
    IdMapBijection { (created TreeRole.Active (-1) 0 0 : LayerTreeImpl Nat) with
        layers_ := [⟨2, some 7⟩]
        layer_id_map_ := fun i => if i = 2 then some ⟨2, some 7⟩ else none } := by
  have h0 : IdMapBijection (created TreeRole.Active (-1) 0 0 : LayerTreeImpl Nat) :=
    idMapBijection_created _ _ _ _
  have hrun : (created TreeRole.Active (-1) 0 0 : LayerTreeImpl Nat).applyOps
        [RegistryOp.add ⟨1, none⟩, RegistryOp.add ⟨2, some 7⟩, RegistryOp.remove 1] =
      some { (created TreeRole.Active (-1) 0 0 : LayerTreeImpl Nat) with
        layers_ := [⟨2, some 7⟩]
        layer_id_map_ := fun i => if i = 2 then some ⟨2, some 7⟩ else none } := by
    have hmap : (fun i : Int => if i = 1 then none
          else if i = 2 then some (⟨2, some 7⟩ : LayerImpl)
          else if i = 1 then some (⟨1, none⟩ : LayerImpl) else none) =
        fun i => if i = 2 then some ⟨2, some 7⟩ else none := by
      funext i
      by_cases h1 : i = 1
      · subst h1
        decide
      · simp [h1]
    exact hmap ▸ rfl
  exact ⟨h0, hrun, (idMap_stays_bijection _ _ _ h0 hrun).1⟩

end LayerTreeImpl

/-! ## The two lifecycle gates together -/

namespace LayerTreeLifecycle

/-- C11: the two lifecycle gates are nested.  In every lifecycle state
`AllowsLayerPropertyAccess()` implies `AllowsPropertyTreeAccess()`, and the converse
fails in exactly one state, `kSyncedPropertyTrees`: that is the only state in which
property tree access is allowed and layer property access is not. -/
theorem layerPropertyAccess_implies_propertyTreeAccess (l : LayerTreeLifecycle) :
    (l.AllowsLayerPropertyAccess = true → l.AllowsPropertyTreeAccess = true) ∧
    (¬ (l.AllowsPropertyTreeAccess = true → l.AllowsLayerPropertyAccess = true) ↔
      l.state_ = kSyncedPropertyTrees) := by
  obtain ⟨s⟩ := l
  cases s <;>
    simp [AllowsLayerPropertyAccess, AllowsPropertyTreeAccess, LifecycleState.toNat]

end LayerTreeLifecycle

/-! ## Properties of the first-frame flag -/

namespace LayerTreeImpl

variable {Promise : Type}

/-- C12: for every source frame number `n` and every boolean `b`,
`set_is_first_frame_after_commit(b)` followed by `is_first_frame_after_commit()`
returns `b && n != -1`.  So the round trip returns `b` whenever `n` is not `-1`, and
returns false for `b = true` when the source frame number is `-1`. -/
theorem first_frame_flag_round_trip (t : LayerTreeImpl Promise) (n : Int) (b : Bool) :
    ((t.set_source_frame_number n).set_is_first_frame_after_commit
        b).is_first_frame_after_commit = (b && decide (n ≠ -1)) ∧
    (n ≠ -1 →
      ((t.set_source_frame_number n).set_is_first_frame_after_commit
        b).is_first_frame_after_commit = b) ∧
    ((t.set_source_frame_number (-1)).set_is_first_frame_after_commit
        true).is_first_frame_after_commit = false ∧
    ((t.set_is_first_frame_after_commit b).is_first_frame_after_commit =
      (b && decide (t.source_frame_number ≠ -1))) := by
  have hbne : ∀ a c : Int, (a != c) = decide (a ≠ c) := by
    intro a c
    by_cases h : a = c <;> simp [h]
  cases b <;>
    simp [set_source_frame_number, set_is_first_frame_after_commit,
      is_first_frame_after_commit, source_frame_number, hbne]

/-- C13: after `set_is_first_frame_after_commit(false)` at source frame number `n`,
for every `m`, `set_source_frame_number(m)` makes `is_first_frame_after_commit()`
return true if and only if `m` differs from `n`: a change of frame number re-arms the
flag, setting the same number again does not. -/
theorem source_frame_number_rearms_flag (t : LayerTreeImpl Promise) (n m : Int) :
    ((((t.set_source_frame_number n).set_is_first_frame_after_commit
        false).set_source_frame_number m).is_first_frame_after_commit = true ↔ m ≠ n) ∧
    (((t.set_is_first_frame_after_commit false).set_source_frame_number
        m).is_first_frame_after_commit = true ↔ m ≠ t.source_frame_number) ∧
    (((t.set_source_frame_number n).set_is_first_frame_after_commit
        false).set_source_frame_number n).is_first_frame_after_commit = false := by
  simp [set_source_frame_number, set_is_first_frame_after_commit,
    is_first_frame_after_commit, source_frame_number]

end LayerTreeImpl

end cc
